import Mathlib

/-!
Verification of the safetyfile PDF service (src/generate_pdf.py, src/server.py)
against its natural-language specification.

Shallow embedding conventions:
* Python's machine floats are modeled as exact rationals (`ℚ`); `round(x, 3)`
  is modeled as rounding `x * 1000` to the nearest integer.
* JSON payload fields that may be missing are modeled as `Option` fields;
  `dict.get(k, d)` becomes `Option.getD`.
* Network and third-party-library effects (requests.get, pypdf's PdfReader,
  PIL's Image.open, subprocess.run) are modeled as oracle function parameters;
  an oracle returning `none` stands for any failure (exception, non-2xx
  status, unparseable bytes).
* Strings are Lean `String`s; the regexes used by the source
  (`[\d]+(?:[.,]\d+)?` in parse_nec, `<[^>]+>` in clean_text) are embedded as
  executable scanners implementing the same maximal-munch semantics.
-/

set_option maxHeartbeats 1000000

abbrev Bytes := List Nat

/-- reportlab's `mm` unit: 72 / 25.4 points, as an exact rational. -/
def mmQ : ℚ := 360 / 127

/-- reportlab A4 page width in points: 210 * mm. -/
def a4W : ℚ := 210 * mmQ

/-- reportlab A4 page height in points: 297 * mm. -/
def a4H : ℚ := 297 * mmQ

/-- The default `timeout` argument of `fetch_bytes` (src/generate_pdf.py line 82). -/
def FETCH_TIMEOUT_DEFAULT : ℕ := 20

/-- Python falsy-or on optional strings: `a or b` where a missing key is `None`
and the empty string is falsy. -/
def pyOrOpt (a b : Option String) : Option String :=
  match a with
  | none => b
  | some s => if s = "" then b else some s

/-- Python `v or d` for a string default: yields `d` when `v` is `None` or `""`. -/
def pyOrStr (v : Option String) (d : String) : String :=
  match v with
  | none => d
  | some s => if s = "" then d else s

/-- Python truthiness of an optional string value. -/
def truthyOpt (v : Option String) : Bool :=
  match v with
  | none => false
  | some s => s ≠ ""

/-- Python `str.upper()` (ASCII; kernel-computable form of `String.toUpper`). -/
def pyUpper (s : String) : String := String.mk (s.toList.map Char.toUpper)

/-- Python `str.lower()` (ASCII; kernel-computable form of `String.toLower`). -/
def pyLower (s : String) : String := String.mk (s.toList.map Char.toLower)

/-- Whether `needle` is a prefix of `hay` (character lists). -/
def listPref : List Char → List Char → Bool
  | [], _ => true
  | _ :: _, [] => false
  | x :: xs, y :: ys => x = y && listPref xs ys

/-- Whether `needle` occurs in `hay` (character lists). -/
def strContainsSub (hay needle : List Char) : Bool :=
  match hay with
  | [] => needle.isEmpty
  | _ :: t => listPref needle hay || strContainsSub t needle

/-- Python's `needle in hay` substring test. -/
def strContains (hay needle : String) : Bool :=
  strContainsSub hay.toList needle.toList

/-- Concatenation of the lists produced by `f` over `l` (list monad bind). -/
def listFlat (f : α → List β) : List α → List β
  | [] => []
  | x :: xs => f x ++ listFlat f xs

/-! ### clean_text (src/generate_pdf.py lines 130-135)

`clean_text` returns `""` for `None`, strips every `<[^>]+>` HTML tag match
from the string, and trims surrounding whitespace. -/

/-- Scan to the first `'>'`; `some rest` is the input after it. -/
def scanToGt : List Char → Option (List Char)
  | [] => none
  | c :: cs => if c = '>' then some cs else scanToGt cs

/-- Given the characters after an opening `'<'`, the remainder after a full
`<[^>]+>` match, or `none` when the regex does not match here (no closing
`'>'`, or `<>` with nothing between). -/
def tagRest : List Char → Option (List Char)
  | [] => none
  | c :: cs => if c = '>' then none else scanToGt cs

/-- `re.sub(r"<[^>]+>", "", ·)`: drop non-overlapping tag matches left to
right.  Structural fuel (initialized to the string length, which every branch
strictly decreases slower than) keeps the definition kernel-computable. -/
def stripTagsAux : ℕ → List Char → List Char
  | 0, _ => []
  | _ + 1, [] => []
  | fuel + 1, c :: cs =>
    if c = '<' then
      match tagRest cs with
      | some rest => stripTagsAux fuel rest
      | none => c :: stripTagsAux fuel cs
    else c :: stripTagsAux fuel cs

/-- Python `str.strip()`: drop leading and trailing whitespace. -/
def pyStrip (cs : List Char) : List Char :=
  ((cs.dropWhile Char.isWhitespace).reverse.dropWhile Char.isWhitespace).reverse

/-- `clean_text` (src/generate_pdf.py lines 130-135): `""` for `None`,
otherwise the input with HTML tags removed and surrounding whitespace
stripped. -/
def clean_text (v : Option String) : String :=
  match v with
  | none => ""
  | some s => String.mk (pyStrip (stripTagsAux s.length s.toList))

/-! ### parse_nec (src/generate_pdf.py lines 114-128)

`re.findall(r"[\d]+(?:[.,]\d+)?", s)` is embedded as a left-to-right
maximal-munch scanner.  A token is `(n, f, k)`: integer part `n`, fractional
digits with value `f` and length `k` (so its numeric value is
`n + f / 10^k`); the comma decimal separator is treated like the dot,
matching the source's `n.replace(",", ".")`. -/

inductive NecState where
  | out
  | intPart (n : ℕ)
  | sepSeen (n : ℕ)
  | fracPart (n f k : ℕ)
deriving DecidableEq

/-- Decimal value of an ASCII digit (Python's `\d` also accepts other Unicode
digits; the payloads at issue are ASCII). -/
def digVal (c : Char) : ℕ := c.toNat - 48

/-- One step of the number scanner: the accumulated tokens and the state after
consuming one character. -/
def necStep (st : List (ℕ × ℕ × ℕ) × NecState) (c : Char) : List (ℕ × ℕ × ℕ) × NecState :=
  match st.2 with
  | .out =>
    if c.isDigit then (st.1, .intPart (digVal c)) else (st.1, .out)
  | .intPart n =>
    if c.isDigit then (st.1, .intPart (10 * n + digVal c))
    else if c = '.' ∨ c = ',' then (st.1, .sepSeen n)
    else (st.1 ++ [(n, 0, 0)], .out)
  | .sepSeen n =>
    if c.isDigit then (st.1, .fracPart n (digVal c) 1)
    else (st.1 ++ [(n, 0, 0)], .out)
  | .fracPart n f k =>
    if c.isDigit then (st.1, .fracPart n (10 * f + digVal c) (k + 1))
    else (st.1 ++ [(n, f, k)], .out)

/-- Emit the token still being scanned, if any, at end of input. -/
def necFinish (st : List (ℕ × ℕ × ℕ) × NecState) : List (ℕ × ℕ × ℕ) :=
  match st.2 with
  | .out => st.1
  | .intPart n => st.1 ++ [(n, 0, 0)]
  | .sepSeen n => st.1 ++ [(n, 0, 0)]
  | .fracPart n f k => st.1 ++ [(n, f, k)]

/-- All `[\d]+(?:[.,]\d+)?` matches of the string, left to right. -/
def findall_nec (s : String) : List (ℕ × ℕ × ℕ) :=
  necFinish (s.toList.foldl necStep ([], NecState.out))

/-- Numeric value of one scanned token. -/
def tokVal (t : ℕ × ℕ × ℕ) : ℚ := (t.1 : ℚ) + (t.2.1 : ℚ) / (10 : ℚ) ^ t.2.2

/-- Python `round(x, 3)` modeled over exact rationals: nearest multiple of
1/1000 (tie behavior is immaterial to every statement below). -/
def roundQ3 (q : ℚ) : ℚ := ((round (q * 1000) : ℤ) : ℚ) / 1000

/-- `parse_nec` (src/generate_pdf.py lines 114-128): 0 for `None`, otherwise
the sum of all numbers found in the string (comma accepted as decimal
separator), rounded to 3 decimal places.  The `Any` input is modeled by the
string `str(value)` it is converted to. -/
def parse_nec (value : Option String) : ℚ :=
  match value with
  | none => 0
  | some s => roundQ3 (((findall_nec s).map tokVal).sum)

/-- Evaluation helper: `round x = n` from the floor characterization. -/
lemma round_eq_of_q (x : ℚ) (n : ℤ) (h1 : (n : ℚ) ≤ x + 1 / 2) (h2 : x + 1 / 2 < n + 1) :
    round x = n := by
  rw [round_eq]
  exact Int.floor_eq_iff.mpr ⟨h1, h2⟩

example : findall_nec "1,5 g + 2.25" = [(1, 5, 1), (2, 25, 2)] := by decide
example : findall_nec "abc" = [] := by decide
example : findall_nec "1.2.3" = [(1, 2, 1), (3, 0, 0)] := by decide
example : parse_nec (some "1,5 g + 2.25") = 375 / 100 := by
  have h : findall_nec "1,5 g + 2.25" = [(1, 5, 1), (2, 25, 2)] := by decide
  rw [parse_nec, h]
  rw [show (((([(1, 5, 1), (2, 25, 2)] : List (ℕ × ℕ × ℕ)).map tokVal).sum) : ℚ) = 375 / 100 by
    simp [tokVal]; norm_num]
  rw [roundQ3, round_eq_of_q (375 / 100 * 1000) 3750 (by norm_num) (by norm_num)]
  norm_num
example : parse_nec (some "abc") = 0 := by
  have h : findall_nec "abc" = [] := by decide
  rw [parse_nec, h]
  simp [roundQ3]
example : parse_nec none = 0 := rfl
example : clean_text (some " <b>hi</b> ") = "hi" := by decide
example : clean_text (some "2024-03-05") = "2024-03-05" := by decide

/-! ### The preview payload data model (section 3 of the spec)

Every field is optional; a missing JSON key is `none`.  Python's
`dict.get(k, default)` is `Option.getD`; the defensive `x or {}` / `or []`
chains of the source collapse to the same `getD`. -/

structure Contact where
  name : Option String
  phone : Option String
  email : Option String
deriving DecidableEq

structure Customer where
  name : Option String
  address : Option String
  contact : Option Contact
deriving DecidableEq

structure Loc where
  name : Option String
  address : Option String
deriving DecidableEq

/-- The `avm` project-metadata object of the preview. -/
structure AvmMeta where
  name : Option String
  customer : Option Customer
  location : Option Loc
  project_start_date : Option String
  project_end_date : Option String
deriving DecidableEq

structure Documents where
  emergency : Option String
  insurance : Option (List String)
  windplan : Option String
  droughtplan : Option String
  risk_pyro : Option String
  risk_general : Option String
  crew_bio_mini : Option String
  crew_bio_full : Option String
deriving DecidableEq

/-- One entry of `uploads.siteplan` / `uploads.permits`. -/
structure Upload where
  name : Option String
  data : Option String
  url : Option String
deriving DecidableEq

structure Uploads where
  permits : Option (List Upload)
  siteplan : Option (List Upload)
deriving DecidableEq

structure MaterialFile where
  name : Option String
  url : Option String
deriving DecidableEq

structure Material where
  displayname : Option String
  quantity_total : Option Int
  type : Option String
  custom_13 : Option String
  files : Option (List MaterialFile)
deriving DecidableEq

structure Materials where
  avm : Option (List Material)
  dees : Option (List Material)
deriving DecidableEq

/-- The preview payload.  `format` models the optional `format` key the
endpoint reads off the raw preview object as a fallback. -/
structure Preview where
  avm : Option AvmMeta
  responsible : Option String
  documents : Option Documents
  uploads : Option Uploads
  materials : Option Materials
  format : Option String
deriving DecidableEq

def emptyContact : Contact := ⟨none, none, none⟩
def emptyCustomer : Customer := ⟨none, none, none⟩
def emptyLoc : Loc := ⟨none, none⟩
def emptyAvmMeta : AvmMeta := ⟨none, none, none, none, none⟩
def emptyDocuments : Documents := ⟨none, none, none, none, none, none, none, none⟩
def emptyUploads : Uploads := ⟨none, none⟩
def emptyMaterials : Materials := ⟨none, none⟩

/-- The preview with every key missing. -/
def emptyPreview : Preview := ⟨none, none, none, none, none, none⟩

/-! ### fetch_bytes (src/generate_pdf.py lines 82-91)

`requests.get(url, timeout=20)` together with the `r.ok` check and the
blanket `except` is modeled by an oracle `net : ℕ → String → Option Bytes`
(timeout, url); `none` covers every failure: exception (including the
`InvalidSchema` raised for any non-http(s) scheme such as `data:` URIs,
for which requests has no connection adapter), timeout, and non-2xx
status. -/

/-- `fetch_bytes` (src/generate_pdf.py lines 82-91): `None` for a falsy url,
otherwise the oracle's answer to a GET with the default 20-second timeout. -/
def fetch_bytes (net : ℕ → String → Option Bytes) (url : String) : Option Bytes :=
  if url = "" then none else net FETCH_TIMEOUT_DEFAULT url

/-- Whether a reference is an `http://` or `https://` URL (the only schemes
requests has a connection adapter for). -/
def isHttpUrl (u : String) : Bool :=
  listPref "http://".toList u.toList || listPref "https://".toList u.toList

/-- A network oracle faithful to requests' scheme handling: any URL that is
not http(s) — e.g. a `data:` URI — makes `requests.get` raise
`InvalidSchema`, which `fetch_bytes`' blanket `except` turns into `None`. -/
def schemeFaithful (net : ℕ → String → Option Bytes) : Prop :=
  ∀ t u, isHttpUrl u = false → net t u = none

/-- A concrete scheme-faithful oracle on which every http(s) GET succeeds
(returning the bytes `%PDF`) and every other scheme fails. -/
def noAdapterNet : ℕ → String → Option Bytes :=
  fun _ u => if isHttpUrl u then some [37, 80, 68, 70] else none

/-! ### image_from_url (src/generate_pdf.py lines 93-112)

PIL's `Image.open(...).size` is an oracle `imgSize : Bytes → Option (ℕ × ℕ)`
(`none` = exception).  The function scales the image by
`min(max_w/w, max_h/h)` — with no 1.0 cap — and returns the resized
dimensions `(int(w*scale), int(h*scale))`. -/

/-- `image_from_url`: the displayed (width, height) of the fetched image, or
`none` on any failure. -/
def image_from_url (net : ℕ → String → Option Bytes) (imgSize : Bytes → Option (ℕ × ℕ))
    (url : String) (max_w_mm max_h_mm : ℚ) : Option (ℤ × ℤ) :=
  match fetch_bytes net url with
  | none => none
  | some data =>
    match imgSize data with
    | none => none
    | some wh =>
      let w : ℚ := wh.1
      let h : ℚ := wh.2
      let scale := min (max_w_mm * mmQ / w) (max_h_mm * mmQ / h)
      some (⌊w * scale⌋, ⌊h * scale⌋)

/-! ### Page-level embedding of build_base_pdf (src/generate_pdf.py lines 313-429)

`pdf_section_title` always ends with `showPage`, so every section banner is
its own page; the content drawn after it lands on the following page.  The
resulting page sequence has a fixed 17-page skeleton; only page payloads
depend on the preview. -/

/-- One row of a dees-materials table (`materials_table_story_dees`): cleaned
display name, parsed NEC value, quantity, and the type column ("Pyro",
"Vuurwerk" or "-").  The `f"{nec:.3f}"` text formatting is display-only; the
row carries the value. -/
structure DeesRow where
  label : String
  nec : ℚ
  qty : Int
  ty : String
deriving DecidableEq

/-- The outcome of `materials_table_story_dees` (src/generate_pdf.py lines
255-311): the pyro and vuurwerk table rows and the two running NEC totals. -/
structure DeesStory where
  pyroRows : List DeesRow
  vuurRows : List DeesRow
  totPyro : ℚ
  totVuur : ℚ
deriving DecidableEq

/-- One row of the AVM materials table (`materials_table_story_avm`). -/
structure AvmRow where
  label : String
  qty : Int
  ty : String
  links : String
deriving DecidableEq

/-- One page of the generated PDF.  `external` is a page copied from an
external PDF by `writer.add_page`: source url, source page index, source
width/height, and the transform scale applied when placing it (pypdf's
`add_page` copies the page unmodified, i.e. scale 1). -/
inductive Page where
  | cover
  | banner (title : String)
  | toc (entries : List String)
  | projectTable (rows : List (String × String))
  | respPage (line : String) (bio : Option (ℤ × ℤ))
  | deesPage (story : Option DeesStory)
  | avmPage (rows : Option (List AvmRow))
  | external (src : String) (idx : ℕ) (w h sc : ℚ)
deriving DecidableEq

/-- The fixed table-of-contents entries (src/generate_pdf.py lines 325-336):
an unconditional 10-entry list. -/
def tocEntriesList : List String :=
  ["1. Projectgegevens",
   "2. Emergency",
   "3. Verzekeringen",
   "4. Verantwoordelijke",
   "5. Materialen",
   "6. Inplantingsplan",
   "7. Risicoanalyse Pyro & Special Effects",
   "8. Windplan",
   "9. Droogteplan",
   "10. Vergunningen & Toelatingen"]

/-- The rows of the project-info table (`project_table_story`,
src/generate_pdf.py lines 202-228): label/value pairs, values passed through
`clean_text`, with the three contact rows present only when the customer's
`contact` object is (truthily) present.  The `<b>` markup around labels is
display-only. -/
def project_table_story (p : Preview) : List (String × String) :=
  let pa := p.avm.getD emptyAvmMeta
  let cust := pa.customer.getD emptyCustomer
  let loc := pa.location.getD emptyLoc
  [("Project", clean_text (some (pa.name.getD ""))),
   ("Opdrachtgever", clean_text (some (cust.name.getD ""))),
   ("Adres", clean_text (some (cust.address.getD "")))]
  ++ (match cust.contact with
      | some ct =>
        [("Contactpersoon", clean_text (some (ct.name.getD ""))),
         ("Tel", clean_text (some (ct.phone.getD ""))),
         ("E-mail", clean_text (some (ct.email.getD "")))]
      | none => [])
  ++ [("Locatie", clean_text (some (loc.name.getD ""))),
      ("Adres locatie", clean_text (some (loc.address.getD ""))),
      ("Start", clean_text (some (pa.project_start_date.getD ""))),
      ("Einde", clean_text (some (pa.project_end_date.getD "")))]

/-- The "Projectverantwoordelijke: ..." line (src/generate_pdf.py line 365
and 548): the responsible name, `-` when missing or empty. -/
def respLine (p : Preview) : String :=
  "Projectverantwoordelijke: " ++ pyOrStr p.responsible "-"

/-! ### Materials tables -/

/-- `os.path.splitext(name)[0]`: the name without its extension; the dot does
not count when it only leads the name (CPython semantics, no path
separators). -/
def splitextRoot (s : String) : String :=
  let cs := s.toList
  match (cs.enum.filter (fun pr => pr.2 = '.')).map Prod.fst |>.getLast? with
  | none => s
  | some i => if (cs.take i).all (· = '.') then s else String.mk (cs.take i)

/-- The `Links` column text of one AVM material row (src/generate_pdf.py
lines 235-240): one line per file that has a url, showing the file name
without extension. -/
def linksTxt (m : Material) : String :=
  (m.files.getD []).foldl
    (fun acc f =>
      if (f.url.getD "") = "" then acc
      else acc ++ splitextRoot (f.name.getD "") ++ "\n")
    ""

/-- `materials_table_story_avm` (src/generate_pdf.py lines 230-253): one row
per material (the ✔ column and table styling are display-only). -/
def materials_table_story_avm (ms : List Material) : List AvmRow :=
  ms.map fun m =>
    { label := clean_text (some (m.displayname.getD ""))
      qty := m.quantity_total.getD 0
      ty := m.type.getD ""
      links := linksTxt m }

/-- One loop iteration of `materials_table_story_dees` (src/generate_pdf.py
lines 261-276): bucket the item by its `custom_13` tag (uppercased) and add
`nec * max(qty, 1)` to that bucket's total; an unknown tag goes to the pyro
table with type "-". -/
def deesStepPdf (acc : DeesStory) (m : Material) : DeesStory :=
  let tag := pyUpper (m.custom_13.getD "")
  let qty : Int := m.quantity_total.getD 0
  let nec := parse_nec (some tag)
  let label := clean_text (some (m.displayname.getD ""))
  let add := nec * ((max qty 1 : ℤ) : ℚ)
  if strContains tag "T1" || strContains tag "T2" then
    { acc with pyroRows := acc.pyroRows ++ [⟨label, nec, qty, "Pyro"⟩],
               totPyro := acc.totPyro + add }
  else if strContains tag "F1" || strContains tag "F2" || strContains tag "F3"
      || strContains tag "F4" then
    { acc with vuurRows := acc.vuurRows ++ [⟨label, nec, qty, "Vuurwerk"⟩],
               totVuur := acc.totVuur + add }
  else
    { acc with pyroRows := acc.pyroRows ++ [⟨label, nec, qty, "-"⟩],
               totPyro := acc.totPyro + add }

/-- `materials_table_story_dees` (src/generate_pdf.py lines 255-311): fold of
the bucketing loop over the material list. -/
def materials_table_story_dees (ms : List Material) : DeesStory :=
  ms.foldl deesStepPdf ⟨[], [], 0, 0⟩

/-! ### build_base_pdf (src/generate_pdf.py lines 313-429) -/

/-- `build_base_pdf`: the 17-page base document.  Every `pdf_section_title`
call ends with `showPage`, so each banner is a page of its own and the
section's drawn content follows on the next page.  The TOC's 10 fixed
entries fit one page (the overflow branch at line 341 cannot trigger). -/
def build_base_pdf (net : ℕ → String → Option Bytes) (imgSize : Bytes → Option (ℕ × ℕ))
    (p : Preview) : List Page :=
  let docs := p.documents.getD emptyDocuments
  let dees := (p.materials.getD emptyMaterials).dees.getD []
  let avm := (p.materials.getD emptyMaterials).avm.getD []
  let bio :=
    if truthyOpt docs.crew_bio_mini then
      image_from_url net imgSize (docs.crew_bio_mini.getD "") 70 60
    else none
  [Page.cover,
   Page.banner "Inhoudstafel", Page.toc tocEntriesList,
   Page.banner "1. Projectgegevens", Page.projectTable (project_table_story p),
   Page.banner "2. Emergency",
   Page.banner "3. Verzekeringen",
   Page.banner "4. Verantwoordelijke", Page.respPage (respLine p) bio,
   Page.banner "5. Materialen",
   Page.deesPage (if dees.isEmpty then none else some (materials_table_story_dees dees)),
   Page.avmPage (if avm.isEmpty then none else some (materials_table_story_avm avm)),
   Page.banner "6. Inplantingsplan",
   Page.banner "7. Risicoanalyse Pyro & Special Effects",
   Page.banner "8. Windplan",
   Page.banner "9. Droogteplan",
   Page.banner "10. Vergunningen & Toelatingen"]

/-! ### append_external_pdfs (src/generate_pdf.py lines 431-487)

pypdf's `PdfReader(BytesIO(b)).pages` is an oracle
`parsePdf : Bytes → Option (List (ℚ × ℚ))` giving each source page's
(width, height); `none` stands for the `except` branch (bytes that are not a
parseable PDF).  `writer.add_page` appends a page unmodified. -/

/-- `append_url` (src/generate_pdf.py lines 439-449): skip falsy urls, failed
fetches, and unparseable PDFs; otherwise append every page of the external
PDF, unmodified, to the writer. -/
def append_url (net : ℕ → String → Option Bytes) (parsePdf : Bytes → Option (List (ℚ × ℚ)))
    (writer : List Page) (url : Option String) : List Page :=
  let u := url.getD ""
  if u = "" then writer
  else
    match fetch_bytes net u with
    | none => writer
    | some b =>
      match parsePdf b with
      | none => writer
      | some pgs => writer ++ pgs.enum.map (fun pr => Page.external u pr.1 pr.2.1 pr.2.2 1)

/-- The pages one `append_url` call contributes ([] on any failure). -/
def urlContribution (net : ℕ → String → Option Bytes)
    (parsePdf : Bytes → Option (List (ℚ × ℚ))) (url : Option String) : List Page :=
  let u := url.getD ""
  if u = "" then []
  else
    match fetch_bytes net u with
    | none => []
    | some b =>
      match parsePdf b with
      | none => []
      | some pgs => pgs.enum.map (fun pr => Page.external u pr.1 pr.2.1 pr.2.2 1)

/-- The document references `append_external_pdfs` walks, in source order
(src/generate_pdf.py lines 451-482): emergency, each insurance url, each
siteplan upload (`data or url`), risk_pyro, risk_general, windplan,
droughtplan, each permit upload. -/
def resourceRefs (p : Preview) : List (Option String) :=
  let docs := p.documents.getD emptyDocuments
  let ups := p.uploads.getD emptyUploads
  [docs.emergency]
  ++ (docs.insurance.getD []).map some
  ++ (ups.siteplan.getD []).map (fun up => pyOrOpt up.data up.url)
  ++ [docs.risk_pyro, docs.risk_general, docs.windplan, docs.droughtplan]
  ++ (ups.permits.getD []).map (fun up => pyOrOpt up.data up.url)

/-- `append_external_pdfs` (src/generate_pdf.py lines 431-487): copy every
base page into the writer, then run `append_url` over the document
references in source order.  The `if ...windplan/droughtplan` guards of
lines 473 and 477 are kept; an untruthy value makes `append_url` a no-op
anyway. -/
def append_external_pdfs (net : ℕ → String → Option Bytes)
    (parsePdf : Bytes → Option (List (ℚ × ℚ))) (basePdf : List Page) (p : Preview) :
    List Page :=
  let docs := p.documents.getD emptyDocuments
  let ups := p.uploads.getD emptyUploads
  let w1 := append_url net parsePdf basePdf docs.emergency
  let w2 := (docs.insurance.getD []).foldl
    (fun w u => append_url net parsePdf w (some u)) w1
  let w3 := (ups.siteplan.getD []).foldl
    (fun w up => append_url net parsePdf w (pyOrOpt up.data up.url)) w2
  let w4 := append_url net parsePdf w3 docs.risk_pyro
  let w5 := append_url net parsePdf w4 docs.risk_general
  let w6 := if truthyOpt docs.windplan then append_url net parsePdf w5 docs.windplan else w5
  let w7 := if truthyOpt docs.droughtplan then append_url net parsePdf w6 docs.droughtplan else w6
  (ups.permits.getD []).foldl
    (fun w up => append_url net parsePdf w (pyOrOpt up.data up.url)) w7

/-! ### build_docx (src/generate_pdf.py lines 491-660)

The DOCX output is a linear block sequence: headings, paragraphs, table rows,
pictures and hyperlink paragraphs.  `add_hyperlink` styling is display-only;
a link paragraph carries its leading text and the url. -/

/-- One block of the generated DOCX. -/
inductive Block where
  | heading (text : String) (level : ℕ)
  | para (text : String)
  | row2 (label val : String)
  | deesRow (r : DeesRow)
  | avmRow (r : AvmRow)
  | necTotalPyro (v : ℚ)
  | necTotalVuur (v : ℚ)
  | picture
  | linkPara (label url : String)
deriving DecidableEq

/-- The project table rows of `build_docx` (src/generate_pdf.py lines
507-524): same label/value computation as the PDF's `project_table_story`
(values through `clean_text`, contact rows conditional). -/
def docx_project_rows (p : Preview) : List (String × String) :=
  let pa := p.avm.getD emptyAvmMeta
  let cust := pa.customer.getD emptyCustomer
  let loc := pa.location.getD emptyLoc
  [("Project", clean_text (some (pa.name.getD ""))),
   ("Opdrachtgever", clean_text (some (cust.name.getD ""))),
   ("Adres", clean_text (some (cust.address.getD "")))]
  ++ (match cust.contact with
      | some ct =>
        [("Contactpersoon", clean_text (some (ct.name.getD ""))),
         ("Tel", clean_text (some (ct.phone.getD ""))),
         ("E-mail", clean_text (some (ct.email.getD "")))]
      | none => [])
  ++ [("Locatie", clean_text (some (loc.name.getD ""))),
      ("Adres locatie", clean_text (some (loc.address.getD ""))),
      ("Start", clean_text (some (pa.project_start_date.getD ""))),
      ("Einde", clean_text (some (pa.project_end_date.getD "")))]

/-- One iteration of the DOCX dees-table loop (src/generate_pdf.py lines
574-582): the row's type comes from the uppercased tag, NEC is parsed from
the raw tag, and `nec * max(qty, 1)` is added to a total only when the type
is "Pyro" or "Vuurwerk" — an unclassified item ("-") adds to neither. -/
def deesStepDocx (acc : List DeesRow × ℚ × ℚ) (m : Material) : List DeesRow × ℚ × ℚ :=
  let tag := m.custom_13.getD ""
  let nec := parse_nec (some tag)
  let qty : Int := m.quantity_total.getD 0
  let ty :=
    if strContains (pyUpper tag) "T1" || strContains (pyUpper tag) "T2" then "Pyro"
    else if strContains (pyUpper tag) "F1" || strContains (pyUpper tag) "F2"
        || strContains (pyUpper tag) "F3" || strContains (pyUpper tag) "F4" then "Vuurwerk"
    else "-"
  let row : DeesRow := ⟨clean_text (some (m.displayname.getD "")), nec, qty, ty⟩
  let add := nec * ((max qty 1 : ℤ) : ℚ)
  if ty = "Pyro" then (acc.1 ++ [row], acc.2.1 + add, acc.2.2)
  else if ty = "Vuurwerk" then (acc.1 ++ [row], acc.2.1, acc.2.2 + add)
  else (acc.1 ++ [row], acc.2.1, acc.2.2)

/-- The DOCX dees table: rows and the (Pyro, Vuurwerk) NEC totals. -/
def docx_dees_table (ms : List Material) : List DeesRow × ℚ × ℚ :=
  ms.foldl deesStepDocx ([], 0, 0)

/-- The AVM table rows of `build_docx` (src/generate_pdf.py lines 589-603);
the Links column lists raw file names (no `splitext`) joined by newlines. -/
def docx_avm_rows (ms : List Material) : List AvmRow :=
  ms.map fun m =>
    { label := clean_text (some (m.displayname.getD ""))
      qty := m.quantity_total.getD 0
      ty := m.type.getD ""
      links := String.intercalate "\n"
        (((m.files.getD []).filter (fun f => truthyOpt f.url)).map (fun f => f.name.getD "")) }

/-- `build_docx` (src/generate_pdf.py lines 491-660): the full block
sequence.  `imgSize` models PIL accepting the fetched mini-bio bytes
(`doc.add_picture` raising inside the `try` is `none`). -/
def build_docx (net : ℕ → String → Option Bytes) (imgSize : Bytes → Option (ℕ × ℕ))
    (p : Preview) : List Block :=
  let pa := p.avm.getD emptyAvmMeta
  let docs := p.documents.getD emptyDocuments
  let ups := p.uploads.getD emptyUploads
  let dees := (p.materials.getD emptyMaterials).dees.getD []
  let avm := (p.materials.getD emptyMaterials).avm.getD []
  [Block.heading "Veiligheidsdossier" 0]
  ++ (if truthyOpt pa.name then [Block.para (pa.name.getD "")] else [])
  ++ [Block.para "Inhoudstafel (vereenvoudigd)"]
  ++ tocEntriesList.map Block.para
  ++ [Block.heading "1. Projectgegevens" 1]
  ++ (docx_project_rows p).map (fun r => Block.row2 r.1 r.2)
  ++ [Block.heading "2. Emergency" 1]
  ++ (if truthyOpt docs.emergency then [Block.linkPara "Open emergency: " (docs.emergency.getD "")]
      else [Block.para "Geen emergency-document ingesteld."])
  ++ [Block.heading "3. Verzekeringen" 1]
  ++ (let ins := docs.insurance.getD []
      if ins.isEmpty then [Block.para "Geen verzekeringsdocumenten ingesteld."]
      else ins.map (fun u => Block.linkPara "Verzekering: " u))
  ++ [Block.heading "4. Verantwoordelijke" 1, Block.para (respLine p)]
  ++ (if truthyOpt docs.crew_bio_mini then
        match fetch_bytes net (docs.crew_bio_mini.getD "") with
        | some b => match imgSize b with | some _ => [Block.picture] | none => []
        | none => []
      else [])
  ++ (if truthyOpt docs.crew_bio_full then
        [Block.linkPara "Volledige bio: " (docs.crew_bio_full.getD "")] else [])
  ++ [Block.heading "5. Materialen" 1, Block.heading "5.1 Dees" 2]
  ++ (if dees.isEmpty then [Block.para "Geen Dees-materialen geselecteerd."]
      else (docx_dees_table dees).1.map Block.deesRow
        ++ [Block.necTotalPyro (docx_dees_table dees).2.1,
            Block.necTotalVuur (docx_dees_table dees).2.2])
  ++ [Block.heading "5.2 AVM" 2]
  ++ (if avm.isEmpty then [Block.para "Geen AVM-materialen geselecteerd."]
      else (docx_avm_rows avm).map Block.avmRow)
  ++ [Block.heading "6. Inplantingsplan" 1]
  ++ (let site := ups.siteplan.getD []
      if site.isEmpty then [Block.para "Geen inplantingsplan toegevoegd."]
      else listFlat (fun f =>
        match pyOrOpt f.data f.url with
        | some u => if u = "" then [] else [Block.linkPara "Inplantingsplan: " u]
        | none => []) site)
  ++ [Block.heading "7. Risicoanalyse Pyro & Special Effects" 1]
  ++ (if truthyOpt docs.risk_pyro then
        [Block.linkPara "Risicoanalyse Pyro: " (docs.risk_pyro.getD "")] else [])
  ++ (if truthyOpt docs.risk_general then
        [Block.linkPara "Risicoanalyse Special Effects: " (docs.risk_general.getD "")] else [])
  ++ [Block.heading "8. Windplan" 1]
  ++ (if truthyOpt docs.windplan then [Block.linkPara "Windplan: " (docs.windplan.getD "")]
      else [Block.para "Niet geselecteerd."])
  ++ [Block.heading "9. Droogteplan" 1]
  ++ (if truthyOpt docs.droughtplan then [Block.linkPara "Droogteplan: " (docs.droughtplan.getD "")]
      else [Block.para "Niet geselecteerd."])
  ++ [Block.heading "10. Vergunningen & Toelatingen" 1]
  ++ (let permits := ups.permits.getD []
      if permits.isEmpty then [Block.para "Geen vergunningen of toelatingen toegevoegd."]
      else listFlat (fun f =>
        match pyOrOpt f.data f.url with
        | some u => if u = "" then [] else [Block.linkPara "Vergunning/Toelating: " u]
        | none => []) permits)

/-! ### The /generate endpoint (src/generate_pdf.py lines 668-691) -/

/-- The JSON body of a POST to `/generate`: either a `{preview, format}`
wrapper, or (backward-compatibility fallback of line 675) the preview object
itself. -/
inductive GenBody where
  | wrapped (preview : Preview) (format : Option String)
  | raw (preview : Preview)
deriving DecidableEq

def GenBody.thePreview : GenBody → Preview
  | .wrapped pv _ => pv
  | .raw pv => pv

/-- `payload.get("format")`: on the raw fallback, the payload is the preview
object itself. -/
def GenBody.payloadFormat : GenBody → Option String
  | .wrapped _ f => f
  | .raw pv => pv.format

/-- An HTTP response of the Flask endpoint. -/
structure Resp where
  status : ℕ
  mime : String
  pdfPages : Option (List Page)
  docxBlocks : Option (List Block)
deriving DecidableEq

/-- The `/generate` handler (src/generate_pdf.py lines 668-691).  `none`
models an unparseable JSON body (HTTP 400).  The base PDF is built and the
external PDFs appended before the format check, exactly as in the source;
`fmt` is `payload.get("format") or preview.get("format") or "pdf"`,
lowercased. -/
def generate (net : ℕ → String → Option Bytes) (imgSize : Bytes → Option (ℕ × ℕ))
    (parsePdf : Bytes → Option (List (ℚ × ℚ))) (payload : Option GenBody) : Resp :=
  match payload with
  | none => { status := 400, mime := "application/json", pdfPages := none, docxBlocks := none }
  | some body =>
    let preview := body.thePreview
    let fmt := pyLower (pyOrStr (pyOrOpt body.payloadFormat preview.format) "pdf")
    let base := build_base_pdf net imgSize preview
    let finalPdf := append_external_pdfs net parsePdf base preview
    if fmt = "pdf" then
      { status := 200, mime := "application/pdf",
        pdfPages := some finalPdf, docxBlocks := none }
    else
      { status := 200,
        mime := "application/vnd.openxmlformats-officedocument.wordprocessingml.document",
        pdfPages := none, docxBlocks := some (build_docx net imgSize preview) }

/-! ### The FastAPI wrapper (src/server.py)

The handler writes the request body to a `NamedTemporaryFile` created with
`delete=False`, invokes `generate_pdf.py` as a subprocess expected to write
`<tmp>.pdf`, and returns that file.  The filesystem is a path→content list;
the subprocess is an oracle from the preview JSON to the produced PDF bytes
(`none` = CalledProcessError).  Neither file is ever deleted. -/

abbrev FileSys := List (String × String)

/-- `POST /generate` of src/server.py (lines 11-34): the filesystem after the
handler returns, and the HTTP status. -/
def server_generate (run : String → Option String) (fs : FileSys) (body : Option String)
    (tmp : String) : FileSys × ℕ :=
  match body with
  | none => (fs, 400)
  | some js =>
    let previewPath := tmp ++ ".json"
    let outPath := tmp ++ ".pdf"
    let fs1 := fs ++ [(previewPath, js)]
    match run js with
    | none => (fs1, 500)
    | some pdf => (fs1 ++ [(outPath, pdf)], 200)

/-! ### Structure lemmas about the splice pass -/

@[simp] lemma listFlat_nil (f : α → List β) : listFlat f [] = [] := rfl

@[simp] lemma listFlat_cons (f : α → List β) (x : α) (xs : List α) :
    listFlat f (x :: xs) = f x ++ listFlat f xs := rfl

lemma append_url_eq (net : ℕ → String → Option Bytes) (parsePdf : Bytes → Option (List (ℚ × ℚ)))
    (w : List Page) (u : Option String) :
    append_url net parsePdf w u = w ++ urlContribution net parsePdf u := by
  unfold append_url urlContribution
  by_cases h : u.getD "" = ""
  · simp [h]
  · simp only [h, if_false]
    cases hf : fetch_bytes net (u.getD "") with
    | none => simp [hf]
    | some b =>
      cases hp : parsePdf b with
      | none => simp [hf, hp]
      | some pgs => simp [hf, hp]

lemma listFlat_append (f : α → List β) (a b : List α) :
    listFlat f (a ++ b) = listFlat f a ++ listFlat f b := by
  induction a with
  | nil => simp
  | cons x xs ih => simp [ih]

lemma listFlat_map (g : β → List γ) (f : α → β) (l : List α) :
    listFlat g (l.map f) = listFlat (fun x => g (f x)) l := by
  induction l with
  | nil => simp
  | cons x xs ih => simp [ih]

lemma foldl_append_url (net : ℕ → String → Option Bytes)
    (parsePdf : Bytes → Option (List (ℚ × ℚ))) (f : α → Option String) (l : List α)
    (w : List Page) :
    l.foldl (fun w x => append_url net parsePdf w (f x)) w
      = w ++ listFlat (fun x => urlContribution net parsePdf (f x)) l := by
  induction l generalizing w with
  | nil => simp
  | cons x xs ih =>
    simp only [List.foldl_cons, listFlat_cons]
    rw [ih, append_url_eq, List.append_assoc]

lemma urlContribution_untruthy (net : ℕ → String → Option Bytes)
    (parsePdf : Bytes → Option (List (ℚ × ℚ))) (v : Option String)
    (h : truthyOpt v = false) : urlContribution net parsePdf v = [] := by
  unfold urlContribution
  have hv : v.getD "" = "" := by
    cases v with
    | none => rfl
    | some s => simpa [truthyOpt] using h
  simp [hv]

lemma append_url_if (net : ℕ → String → Option Bytes)
    (parsePdf : Bytes → Option (List (ℚ × ℚ))) (w : List Page) (v : Option String) :
    (if truthyOpt v then append_url net parsePdf w v else w)
      = w ++ urlContribution net parsePdf v := by
  by_cases h : truthyOpt v
  · simp [h, append_url_eq]
  · have hf : truthyOpt v = false := by simpa using h
    simp [hf, urlContribution_untruthy net parsePdf v hf]

/-- `append_external_pdfs` is the base document followed by each reference\'s
contribution, in source order. -/
lemma append_external_pdfs_eq (net : ℕ → String → Option Bytes)
    (parsePdf : Bytes → Option (List (ℚ × ℚ))) (basePdf : List Page) (p : Preview) :
    append_external_pdfs net parsePdf basePdf p
      = basePdf ++ listFlat (urlContribution net parsePdf) (resourceRefs p) := by
  unfold append_external_pdfs resourceRefs
  simp only [foldl_append_url]
  simp only [append_url_if]
  simp only [append_url_eq]
  simp only [listFlat_append, listFlat_map, listFlat_cons, listFlat_nil,
    List.append_nil, List.append_assoc]

/-! ### Totals lemmas for the dees tables -/

/-- What one dees item adds to its bucket's total in the PDF table:
`parse_nec(tag.upper()) * max(qty, 1)` — every item lands in some bucket. -/
def pdfDeesContrib (m : Material) : ℚ :=
  parse_nec (some (pyUpper (m.custom_13.getD ""))) * ((max (m.quantity_total.getD 0) 1 : ℤ) : ℚ)

/-- The DOCX type column of one dees item. -/
def docxDeesTy (m : Material) : String :=
  let tag := m.custom_13.getD ""
  if strContains (pyUpper tag) "T1" || strContains (pyUpper tag) "T2" then "Pyro"
  else if strContains (pyUpper tag) "F1" || strContains (pyUpper tag) "F2"
      || strContains (pyUpper tag) "F3" || strContains (pyUpper tag) "F4" then "Vuurwerk"
  else "-"

/-- What one dees item adds to the DOCX Pyro total: its full
`nec * max(qty, 1)` when classified "Pyro", nothing otherwise. -/
def docxDeesContribPyro (m : Material) : ℚ :=
  if docxDeesTy m = "Pyro" then
    parse_nec (some (m.custom_13.getD "")) * ((max (m.quantity_total.getD 0) 1 : ℤ) : ℚ)
  else 0

/-- What one dees item adds to the DOCX Vuurwerk total: its full
`nec * max(qty, 1)` when classified "Vuurwerk", nothing otherwise — an
unclassified ("-") item adds to neither DOCX total. -/
def docxDeesContribVuur (m : Material) : ℚ :=
  if docxDeesTy m = "Vuurwerk" then
    parse_nec (some (m.custom_13.getD "")) * ((max (m.quantity_total.getD 0) 1 : ℤ) : ℚ)
  else 0

lemma deesStepPdf_total (acc : DeesStory) (m : Material) :
    (deesStepPdf acc m).totPyro + (deesStepPdf acc m).totVuur
      = acc.totPyro + acc.totVuur + pdfDeesContrib m := by
  simp only [deesStepPdf, pdfDeesContrib]
  split_ifs
  all_goals simp
  all_goals ring

lemma dees_pdf_fold (ms : List Material) :
    ∀ acc : DeesStory,
      (ms.foldl deesStepPdf acc).totPyro + (ms.foldl deesStepPdf acc).totVuur
        = acc.totPyro + acc.totVuur + (ms.map pdfDeesContrib).sum := by
  induction ms with
  | nil => intro acc; simp
  | cons m ms ih =>
    intro acc
    simp only [List.foldl_cons, List.map_cons, List.sum_cons]
    rw [ih, deesStepPdf_total]
    ring

lemma deesStepDocx_totals (acc : List DeesRow × ℚ × ℚ) (m : Material) :
    (deesStepDocx acc m).2.1 = acc.2.1 + docxDeesContribPyro m
    ∧ (deesStepDocx acc m).2.2 = acc.2.2 + docxDeesContribVuur m := by
  simp only [deesStepDocx, docxDeesContribPyro, docxDeesContribVuur, docxDeesTy]
  split_ifs <;> simp_all

lemma dees_docx_fold (ms : List Material) :
    ∀ acc : List DeesRow × ℚ × ℚ,
      (ms.foldl deesStepDocx acc).2.1 = acc.2.1 + (ms.map docxDeesContribPyro).sum
      ∧ (ms.foldl deesStepDocx acc).2.2 = acc.2.2 + (ms.map docxDeesContribVuur).sum := by
  induction ms with
  | nil => intro acc; simp
  | cons m ms ih =>
    intro acc
    simp only [List.foldl_cons, List.map_cons, List.sum_cons]
    obtain ⟨h1, h2⟩ := deesStepDocx_totals acc m
    obtain ⟨g1, g2⟩ := ih (deesStepDocx acc m)
    constructor
    · rw [g1, h1]; ring
    · rw [g2, h2]; ring

/-! ### Non-negativity of parse_nec -/

lemma tokVal_nonneg (t : ℕ × ℕ × ℕ) : 0 ≤ tokVal t := by
  unfold tokVal
  positivity

lemma roundQ3_nonneg (q : ℚ) (h : 0 ≤ q) : 0 ≤ roundQ3 q := by
  unfold roundQ3
  apply div_nonneg _ (by norm_num)
  have hz : (0 : ℤ) ≤ round (q * 1000) := by
    rw [round_eq, Int.le_floor]
    push_cast
    nlinarith
  exact_mod_cast hz

lemma parse_nec_nonneg (v : Option String) : 0 ≤ parse_nec v := by
  cases v with
  | none => simp [parse_nec]
  | some s =>
    unfold parse_nec
    apply roundQ3_nonneg
    apply List.sum_nonneg
    intro x hx
    obtain ⟨t, _, rfl⟩ := List.mem_map.mp hx
    exact tokVal_nonneg t

/-! ### Concrete evaluation helpers -/

lemma parse_nec_five : parse_nec (some "5") = 5 := by
  have h : findall_nec "5" = [(5, 0, 0)] := by decide
  rw [parse_nec, h]
  rw [show ((([(5, 0, 0)] : List (ℕ × ℕ × ℕ)).map tokVal).sum : ℚ) = 5 by simp [tokVal]]
  unfold roundQ3
  rw [round_eq_of_q ((5 : ℚ) * 1000) 5000 (by norm_num) (by norm_num)]
  norm_num

/-- A dees material whose `custom_13` tag carries an NEC amount but matches
neither T1/T2 nor F1–F4: quantity 0, tag "5". -/
def mUnknown : Material :=
  { displayname := some "X", quantity_total := some 0, type := none,
    custom_13 := some "5", files := none }

/-! ### C9 -/

/-- C9: for every input value, `parse_nec` returns (without raising — it is a
total function of the embedded input) a non-negative rational equal to the
sum of all decimal numbers found in the string form of the value (comma
accepted as decimal separator) rounded to 3 decimal places, and returns 0
when the value is None or the string contains no numbers. -/
theorem C9_parse_nec_spec :
    (∀ v, 0 ≤ parse_nec v)
    ∧ parse_nec none = 0
    ∧ (∀ s, parse_nec (some s) = roundQ3 (((findall_nec s).map tokVal).sum))
    ∧ ∀ s, findall_nec s = [] → parse_nec (some s) = 0 := by
  refine ⟨parse_nec_nonneg, rfl, fun s => rfl, fun s h => ?_⟩
  rw [parse_nec, h]
  simp [roundQ3]

/-- Witness for C9 at concrete inputs. -/
theorem C9_parse_nec_witness :
    parse_nec (some "no numbers here") = 0 ∧ 0 ≤ parse_nec (some "1,5 g") := by
  constructor
  · exact C9_parse_nec_spec.2.2.2 "no numbers here" (by decide)
  · exact C9_parse_nec_spec.1 (some "1,5 g")

/-! ### C10 -/

/-- C10 counterexample: the dees item `mUnknown` (`custom_13 = "5"`, quantity
0) contributes its full NEC value 5 to the PDF totals (unknown tags land in
the pyro bucket), but contributes nothing to either DOCX total — so its
DOCX contribution is not `parse_nec * max(qty, 1)`, refuting the claim's
"in both the PDF and DOCX renderings". -/
theorem C10_counterexample :
    (materials_table_story_dees [mUnknown]).totPyro
        + (materials_table_story_dees [mUnknown]).totVuur = 5
    ∧ (docx_dees_table [mUnknown]).2.1 = 0
    ∧ (docx_dees_table [mUnknown]).2.2 = 0
    ∧ pdfDeesContrib mUnknown = 5
    ∧ (5 : ℚ) ≠ 0 := by
  have hty : docxDeesTy mUnknown = "-" := by decide
  have hpy : docxDeesContribPyro mUnknown = 0 := by
    rw [docxDeesContribPyro, hty, if_neg (by decide)]
  have hvu : docxDeesContribVuur mUnknown = 0 := by
    rw [docxDeesContribVuur, hty, if_neg (by decide)]
  have hcontrib : pdfDeesContrib mUnknown = 5 := by
    unfold pdfDeesContrib mUnknown
    rw [show pyUpper ((some "5").getD "") = "5" by decide]
    rw [parse_nec_five]
    norm_num
  refine ⟨?_, ?_, ?_, hcontrib, by norm_num⟩
  · have h := dees_pdf_fold [mUnknown] ⟨[], [], 0, 0⟩
    simp only [List.map_cons, List.map_nil, List.sum_cons, List.sum_nil] at h
    rw [materials_table_story_dees, h, hcontrib]
    norm_num
  · have h := (dees_docx_fold [mUnknown] ([], 0, 0)).1
    simp only [List.map_cons, List.map_nil, List.sum_cons, List.sum_nil] at h
    rw [docx_dees_table, h, hpy]
    norm_num
  · have h := (dees_docx_fold [mUnknown] ([], 0, 0)).2
    simp only [List.map_cons, List.map_nil, List.sum_cons, List.sum_nil] at h
    rw [docx_dees_table, h, hvu]
    norm_num

/-- C10 (amended): every dees item contributes `parse_nec(tag) * max(qty, 1)`
exactly once to the PDF totals — items with unknown tags counting toward the
pyro total — while in the DOCX rendering only items classified "Pyro" or
"Vuurwerk" contribute to a total; an unclassified item contributes nothing
there. -/
theorem C10_dees_totals (ms : List Material) :
    (materials_table_story_dees ms).totPyro + (materials_table_story_dees ms).totVuur
      = (ms.map pdfDeesContrib).sum
    ∧ (docx_dees_table ms).2.1 = (ms.map docxDeesContribPyro).sum
    ∧ (docx_dees_table ms).2.2 = (ms.map docxDeesContribVuur).sum := by
  refine ⟨?_, ?_, ?_⟩
  · have h := dees_pdf_fold ms ⟨[], [], 0, 0⟩
    rw [materials_table_story_dees, h]
    norm_num
  · have h := (dees_docx_fold ms ([], 0, 0)).1
    rw [docx_dees_table, h]
    norm_num
  · have h := (dees_docx_fold ms ([], 0, 0)).2
    rw [docx_dees_table, h]
    norm_num

/-! ### C3 -/

/-- The table-of-contents entries appearing in a page list. -/
def tocEntriesOf (pages : List Page) : List String :=
  listFlat (fun pg => match pg with | Page.toc es => es | _ => []) pages

/-- The section banner titles of the document body (every banner page except
the table of contents' own banner). -/
def bodySectionTitles (pages : List Page) : List String :=
  pages.filterMap (fun pg =>
    match pg with
    | Page.banner t => if t = "Inhoudstafel" then none else some t
    | _ => none)

/-- An AVM (special-effects) material item. -/
def mAvmItem : Material :=
  { displayname := some "Fogger", quantity_total := some 2, type := some "AVM",
    custom_13 := none, files := none }

/-- A preview with an empty `materials.dees` list and a non-empty
`materials.avm` list — the claim's example payload. -/
def pC3 : Preview :=
  { emptyPreview with materials := some { avm := some [mAvmItem], dees := some [] } }

/-- C3 counterexample: for the payload with empty `materials.dees` and
non-empty `materials.avm`, the generated table of contents is the fixed
10-entry list, which does contain a pyro risk-analysis entry
("7. Risicoanalyse Pyro & Special Effects") and contains no separate
special-effects-only entry — refuting the claimed conditional insertion. -/
theorem C3_counterexample :
    tocEntriesOf (build_base_pdf (fun _ _ => none) (fun _ => none) pC3) = tocEntriesList
    ∧ "7. Risicoanalyse Pyro & Special Effects" ∈ tocEntriesList
    ∧ strContains "7. Risicoanalyse Pyro & Special Effects" "Risicoanalyse Pyro" = true
    ∧ (pC3.materials.getD emptyMaterials).dees.getD [] = []
    ∧ (pC3.materials.getD emptyMaterials).avm.getD [] ≠ [] := by
  refine ⟨rfl, by decide, by decide, by decide, by decide⟩

/-- C3 (amended): for every preview the table of contents enumerates exactly
the sections that appear in the document body, in the same order — but the
section list is fixed: the risk-analysis section is the single unconditional
entry "7. Risicoanalyse Pyro & Special Effects"; no section is inserted or
dropped based on the material lists. -/
theorem C3_toc_matches_body (p : Preview) (net : ℕ → String → Option Bytes)
    (imgSize : Bytes → Option (ℕ × ℕ)) :
    tocEntriesOf (build_base_pdf net imgSize p)
        = bodySectionTitles (build_base_pdf net imgSize p)
    ∧ tocEntriesOf (build_base_pdf net imgSize p) = tocEntriesList := by
  exact ⟨rfl, rfl⟩

/-! ### C4 -/

/-- A preview whose `avm.project_start_date` is the claim's example date. -/
def pDate : Preview :=
  { emptyPreview with avm := some { emptyAvmMeta with project_start_date := some "2024-03-05" } }

/-- C4 counterexample: the value "2024-03-05" is rendered in the Start row
verbatim, not as "05/03/2024" — the source contains no date reformatting. -/
theorem C4_counterexample :
    ("Start", "2024-03-05") ∈ project_table_story pDate
    ∧ ("Start", "05/03/2024") ∉ project_table_story pDate
    ∧ ("Start", "2024-03-05") ∈ docx_project_rows pDate := by
  refine ⟨by decide, by decide, by decide⟩

/-- C4 (amended): date-like fields are rendered verbatim (after the
`clean_text` HTML-strip and whitespace trim), in both the PDF project table
and the DOCX project table; no value is reformatted to DD/MM/YYYY, and
unparseable values equally pass through unchanged. -/
theorem C4_dates_verbatim (p : Preview) :
    ("Start", clean_text (some ((p.avm.getD emptyAvmMeta).project_start_date.getD "")))
        ∈ project_table_story p
    ∧ ("Einde", clean_text (some ((p.avm.getD emptyAvmMeta).project_end_date.getD "")))
        ∈ project_table_story p
    ∧ ("Start", clean_text (some ((p.avm.getD emptyAvmMeta).project_start_date.getD "")))
        ∈ docx_project_rows p
    ∧ ("Einde", clean_text (some ((p.avm.getD emptyAvmMeta).project_end_date.getD "")))
        ∈ docx_project_rows p
    ∧ clean_text (some "2024-03-05") = "2024-03-05"
    ∧ clean_text (some "2024-03-05T10:00:00Z") = "2024-03-05T10:00:00Z"
    ∧ clean_text (some "not-a-date") = "not-a-date" := by
  refine ⟨?_, ?_, ?_, ?_, by decide, by decide, by decide⟩
  all_goals
    simp only [project_table_story, docx_project_rows]
    cases ((p.avm.getD emptyAvmMeta).customer.getD emptyCustomer).contact <;> simp

/-! ### C6 -/

/-- C6: for every preview — in particular any combination of missing
optional fields — generation succeeds and produces a non-empty document:
the base PDF always has its 17 pages (the splice pass only appends), the
DOCX always has at least its headings, and the extraction helpers yield the
configured defaults (empty string, "-") on the fully-empty preview instead
of raising. -/
theorem C6_missing_fields_safe (p : Preview) (net : ℕ → String → Option Bytes)
    (imgSize : Bytes → Option (ℕ × ℕ)) (parsePdf : Bytes → Option (List (ℚ × ℚ))) :
    17 ≤ (append_external_pdfs net parsePdf (build_base_pdf net imgSize p) p).length
    ∧ 0 < (build_docx net imgSize p).length
    ∧ project_table_story emptyPreview =
        [("Project", ""), ("Opdrachtgever", ""), ("Adres", ""), ("Locatie", ""),
         ("Adres locatie", ""), ("Start", ""), ("Einde", "")]
    ∧ respLine emptyPreview = "Projectverantwoordelijke: -" := by
  refine ⟨?_, ?_, by decide, by decide⟩
  · have hb : (build_base_pdf net imgSize p).length = 17 := rfl
    rw [append_external_pdfs_eq, List.length_append, hb]
    exact Nat.le_add_right 17 _
  · unfold build_docx
    simp only [List.length_append, List.length_cons, List.length_nil]
    omega

/-! ### C1 -/

/-- A preview whose only external document is the emergency plan. -/
def pC1 : Preview :=
  { emptyPreview with documents := some { emptyDocuments with emergency := some "http://x/em.pdf" } }

/-- A network oracle on which only the emergency URL resolves (to the bytes
`[1]`); in particular the logo fetch fails harmlessly. -/
def netC1 : ℕ → String → Option Bytes :=
  fun _ u => if u = "http://x/em.pdf" then some [1] else none

/-- A pypdf oracle on which the bytes `[1]` parse as a two-page A4-sized PDF. -/
def parseC1 : Bytes → Option (List (ℚ × ℚ)) :=
  fun b => if b = [1] then some [((595 : ℚ), (842 : ℚ)), ((595 : ℚ), (842 : ℚ))] else none

/-- A PIL oracle on which nothing parses as an image. -/
def imgNone : Bytes → Option (ℕ × ℕ) := fun _ => none

/-- C1: evaluating the splice pass at a preview whose emergency document is a
two-page PDF.  The emergency pages are appended at the very end of the
document — after the "10. Vergunningen & Toelatingen" banner page (the base
document is a strict prefix of the output) — and the page immediately after
the "2. Emergency" banner page (index 5) is the "3. Verzekeringen" banner,
not the emergency content.  This contradicts the claimed (and the function's
own docstring's) placement "immediately following the target page". -/
theorem C1_externals_collected_at_end :
    append_external_pdfs netC1 parseC1 (build_base_pdf netC1 imgNone pC1) pC1
      = build_base_pdf netC1 imgNone pC1
        ++ [Page.external "http://x/em.pdf" 0 595 842 1,
            Page.external "http://x/em.pdf" 1 595 842 1]
    ∧ (build_base_pdf netC1 imgNone pC1).get? 5 = some (Page.banner "2. Emergency")
    ∧ (append_external_pdfs netC1 parseC1 (build_base_pdf netC1 imgNone pC1) pC1).get? 6
        = some (Page.banner "3. Verzekeringen")
    ∧ (build_base_pdf netC1 imgNone pC1).get? 16
        = some (Page.banner "10. Vergunningen & Toelatingen") := by
  refine ⟨rfl, rfl, rfl, rfl⟩

/-! ### C2 -/

/-- Modelled from the spec: the uniform scale factor its splice algorithm
prescribes for an external first page,
`min(available_width / w, available_height / h, 1.0)`. -/
def specScale (aw ah w h : ℚ) : ℚ := min (min (aw / w) (ah / h)) 1

/-- The available width below the banner per the spec's words, with this
code's margins: A4 width minus the 30pt left and right margins. -/
def availW : ℚ := a4W - 60

/-- The available height per the spec's words: A4 height minus the 40pt
banner and the 50pt bottom margin. -/
def availH : ℚ := a4H - 90

/-- A preview whose only external document is an oversized one-page PDF. -/
def pC2 : Preview :=
  { emptyPreview with documents := some { emptyDocuments with emergency := some "http://x/big.pdf" } }

/-- A network oracle resolving the big PDF and a small raster image. -/
def netC2 : ℕ → String → Option Bytes :=
  fun _ u =>
    if u = "http://x/big.pdf" then some [2]
    else if u = "http://x/img.png" then some [3]
    else none

/-- A pypdf oracle on which the bytes `[2]` parse as one 1000×800pt page. -/
def parseC2 : Bytes → Option (List (ℚ × ℚ)) :=
  fun b => if b = [2] then some [((1000 : ℚ), (800 : ℚ))] else none

/-- A PIL oracle on which the bytes `[3]` are a 10×10 pixel image. -/
def imgC2 : Bytes → Option (ℕ × ℕ) :=
  fun b => if b = [3] then some (10, 10) else none

lemma specScale_eval : specScale availW availH 1000 800 = availW / 1000 := by
  have h1 : availW / 1000 ≤ availH / 800 := by
    simp only [availW, availH, a4W, a4H, mmQ]; norm_num
  have h2 : availW / 1000 ≤ 1 := by
    simp only [availW, a4W, mmQ]; norm_num
  unfold specScale
  rw [min_eq_left h1, min_eq_left h2]

/-- C2 counterexample: the splice pass places the 1000×800 external first
page unmodified (scale 1, original dimensions) even though it is wider than
the whole A4 page; the claim's uniform factor
`min(availW / 1000, availH / 800, 1)` is strictly below 1 and would bound
the scaled width by the available width, so the emitted width (1000)
disagrees with the claimed scaled width.  The same pass through
`image_from_url` (also cited by the claim) enlarges a 10×10 image that
already fits to 141×141 — `min(max_w/w, max_h/h)` carries no cap at 1.0. -/
theorem C2_counterexample :
    append_external_pdfs netC2 parseC2 (build_base_pdf netC2 imgC2 pC2) pC2
      = build_base_pdf netC2 imgC2 pC2 ++ [Page.external "http://x/big.pdf" 0 1000 800 1]
    ∧ (1000 : ℚ) > a4W
    ∧ specScale availW availH 1000 800 < 1
    ∧ specScale availW availH 1000 800 * 1000 ≤ availW
    ∧ specScale availW availH 1000 800 * 1000 ≠ 1000
    ∧ image_from_url netC2 imgC2 "http://x/img.png" 50 50 = some (141, 141)
    ∧ (10 : ℤ) < 141 := by
  refine ⟨rfl, ?_, ?_, ?_, ?_, ?_, by norm_num⟩
  · unfold a4W mmQ; norm_num
  · rw [specScale_eval]; unfold availW a4W mmQ; norm_num
  · rw [specScale_eval]; unfold availW a4W mmQ; norm_num
  · rw [specScale_eval]; unfold availW a4W mmQ; norm_num
  · unfold image_from_url
    rw [show fetch_bytes netC2 "http://x/img.png" = some [3] from rfl]
    dsimp only
    rw [show imgC2 [3] = some ((10 : ℕ), (10 : ℕ)) from rfl]
    dsimp only
    rw [min_self]
    push_cast
    have hv : (10 : ℚ) * (50 * mmQ / 10) = 18000 / 127 := by unfold mmQ; ring
    rw [hv]
    have hfl : ⌊(18000 / 127 : ℚ)⌋ = 141 := by
      apply Int.floor_eq_iff.mpr
      constructor <;> norm_num
    rw [hfl]

/-- C2 (amended): external PDF pages are spliced unmodified — whenever a
reference fetches and parses, its pages enter the output in order with their
original width and height and transform scale 1 (no shrink-to-fit, no
overlay), and the whole splice pass only appends these contributions after
the untouched base document. -/
theorem C2_external_pages_unscaled (net : ℕ → String → Option Bytes)
    (parsePdf : Bytes → Option (List (ℚ × ℚ))) (u : Option String) (b : Bytes)
    (pgs : List (ℚ × ℚ)) (basePdf : List Page) (p : Preview)
    (hf : fetch_bytes net (u.getD "") = some b) (hp : parsePdf b = some pgs) :
    urlContribution net parsePdf u
      = pgs.enum.map (fun pr => Page.external (u.getD "") pr.1 pr.2.1 pr.2.2 1)
    ∧ append_external_pdfs net parsePdf basePdf p
      = basePdf ++ listFlat (urlContribution net parsePdf) (resourceRefs p) := by
  constructor
  · have hne : ¬ u.getD "" = "" := by
      intro h
      rw [h] at hf
      simp [fetch_bytes] at hf
    unfold urlContribution
    simp [hne, hf, hp]
  · exact append_external_pdfs_eq net parsePdf basePdf p

/-- Witness for C2 at the concrete oversized-page input. -/
theorem C2_external_pages_unscaled_witness :
    urlContribution netC2 parseC2 (some "http://x/big.pdf")
      = [Page.external "http://x/big.pdf" 0 1000 800 1]
    ∧ append_external_pdfs netC2 parseC2 [] emptyPreview = [] := by
  have h := C2_external_pages_unscaled netC2 parseC2 (some "http://x/big.pdf") [2]
    [((1000 : ℚ), (800 : ℚ))] [] emptyPreview rfl rfl
  exact ⟨by rw [h.1]; rfl, by rw [h.2]; rfl⟩

/-! ### C5 -/

/-- C5 counterexample: a well-formed base64 `data:` URI is not decoded —
`fetch_bytes` returns `None` for it under the scheme-faithful oracle (the
very oracle on which plain http(s) URLs succeed), because `requests.get`
raises `InvalidSchema` for any non-http(s) scheme and the function's blanket
`except` swallows it. -/
theorem C5_counterexample :
    fetch_bytes noAdapterNet "data:application/pdf;base64,JVBERi0=" = none
    ∧ (fetch_bytes noAdapterNet "data:application/pdf;base64,JVBERi0=").isSome = false
    ∧ fetch_bytes noAdapterNet "http://host/doc.pdf" = some [37, 80, 68, 70] := by
  refine ⟨by decide, by decide, by decide⟩

/-- C5 (amended): `fetch_bytes` passes every non-empty reference to a single
`requests.get` with the fixed 20-second timeout (within the claimed 15–30 s
band) and returns whatever bytes a successful http(s) GET yields; every
failure returns `None` without raising — and that includes every `data:` URI,
which is never decoded in-process: under any oracle faithful to requests'
scheme handling, a non-http(s) reference yields `None`. -/
theorem C5_fetch_contract (net : ℕ → String → Option Bytes) (u : String)
    (h : schemeFaithful net) :
    fetch_bytes net u = (if u = "" then none else net FETCH_TIMEOUT_DEFAULT u)
    ∧ (isHttpUrl u = false → fetch_bytes net u = none)
    ∧ 15 ≤ FETCH_TIMEOUT_DEFAULT ∧ FETCH_TIMEOUT_DEFAULT ≤ 30 := by
  refine ⟨rfl, ?_, by norm_num [FETCH_TIMEOUT_DEFAULT], by norm_num [FETCH_TIMEOUT_DEFAULT]⟩
  intro hu
  unfold fetch_bytes
  by_cases he : u = ""
  · simp [he]
  · simp [he, h FETCH_TIMEOUT_DEFAULT u hu]

/-- Witness for C5 at a concrete data URI and the concrete oracle. -/
theorem C5_fetch_contract_witness :
    fetch_bytes noAdapterNet "data:text/plain;base64,AA==" = none
    ∧ 15 ≤ FETCH_TIMEOUT_DEFAULT := by
  have hsf : schemeFaithful noAdapterNet := by
    intro t u hu
    unfold noAdapterNet
    simp [hu]
  have h := C5_fetch_contract noAdapterNet "data:text/plain;base64,AA==" hsf
  exact ⟨h.2.1 (by decide), h.2.2.1⟩

/-! ### C7 -/

/-- A preview whose emergency document points at an unreachable host. -/
def pC7 : Preview :=
  { emptyPreview with
    documents := some { emptyDocuments with emergency := some "http://refused/x.pdf" } }

/-- C7: when a referenced resource fails — either the fetch itself fails
(network error, timeout, non-2xx, undecodable reference: the oracle answers
`none`) or the bytes are fetched but are not parseable as a PDF (pypdf's
`except` branch: `parsePdf b = none`) — that resource contributes no pages
(treated as absent), the splice pass still equals the untouched base
document followed by every other reference's contribution (so splicing
proceeds), the failing section's banner page is still present (the output
has no overlay mechanism to lose), and the handler still answers HTTP 200
with a document. -/
theorem C7_fetch_failure_graceful (p : Preview) (net : ℕ → String → Option Bytes)
    (imgSize : Bytes → Option (ℕ × ℕ)) (parsePdf : Bytes → Option (List (ℚ × ℚ)))
    (u : String) (body : GenBody)
    (hmem : some u ∈ resourceRefs p)
    (hfail : net FETCH_TIMEOUT_DEFAULT u = none
      ∨ ∃ b, net FETCH_TIMEOUT_DEFAULT u = some b ∧ parsePdf b = none) :
    urlContribution net parsePdf (some u) = []
    ∧ append_external_pdfs net parsePdf (build_base_pdf net imgSize p) p
        = build_base_pdf net imgSize p
          ++ listFlat (urlContribution net parsePdf) (resourceRefs p)
    ∧ Page.banner "2. Emergency"
        ∈ append_external_pdfs net parsePdf (build_base_pdf net imgSize p) p
    ∧ (generate net imgSize parsePdf (some body)).status = 200 := by
  refine ⟨?_, append_external_pdfs_eq net parsePdf _ p, ?_, ?_⟩
  · unfold urlContribution
    by_cases he : u = ""
    · simp [he]
    · rcases hfail with hnone | ⟨b, hb, hp⟩
      · have hfb : fetch_bytes net u = none := by
          unfold fetch_bytes
          simp [he, hnone]
        simp [he, hfb]
      · have hfb : fetch_bytes net u = some b := by
          unfold fetch_bytes
          simp [he, hb]
        simp [he, hfb, hp]
  · rw [append_external_pdfs_eq]
    apply List.mem_append_left
    unfold build_base_pdf
    exact List.Mem.tail _ (List.Mem.tail _ (List.Mem.tail _ (List.Mem.tail _
      (List.Mem.tail _ (List.Mem.head _)))))
  · unfold generate
    dsimp only
    split <;> rfl

/-- Witness for C7 at concrete inputs for both failure modes: an oracle that
refuses every connection, and an oracle that serves bytes which do not parse
as a PDF. -/
theorem C7_fetch_failure_witness :
    urlContribution (fun _ _ => none) (fun _ => none) (some "http://refused/x.pdf") = []
    ∧ urlContribution (fun _ _ => some [9]) (fun _ => none) (some "http://refused/x.pdf") = []
    ∧ (generate (fun _ _ => none) (fun _ => none) (fun _ => none)
        (some (GenBody.raw pC7))).status = 200 := by
  have h1 := C7_fetch_failure_graceful pC7 (fun _ _ => none) (fun _ => none) (fun _ => none)
    "http://refused/x.pdf" (GenBody.raw pC7) (by decide) (Or.inl rfl)
  have h2 := C7_fetch_failure_graceful pC7 (fun _ _ => some [9]) (fun _ => none) (fun _ => none)
    "http://refused/x.pdf" (GenBody.raw pC7) (by decide) (Or.inr ⟨[9], rfl, rfl⟩)
  exact ⟨h1.1, h2.1, h1.2.2.2⟩

/-! ### C8 -/

/-- C8 counterexample: one successful request leaves two files behind — the
`delete=False` temp preview JSON and the generated PDF — so the filesystem
after the handler returns differs from the filesystem before it: state
persists past the response. -/
theorem C8_counterexample :
    server_generate (fun js => some ("%PDF-" ++ js)) [] (some "x") "/tmp/tmpabc"
      = ([("/tmp/tmpabc.json", "x"), ("/tmp/tmpabc.pdf", "%PDF-x")], 200)
    ∧ ([("/tmp/tmpabc.json", "x"), ("/tmp/tmpabc.pdf", "%PDF-x")] : FileSys) ≠ [] := by
  refine ⟨rfl, by decide⟩

/-- C8 (amended): on every successful request, the handler persists exactly
two new files — the temp preview JSON (written with `delete=False`) and the
subprocess's output PDF — and deletes neither before returning the 200
response; both remain on the filesystem afterwards. -/
theorem C8_files_persist (run : String → Option String) (fs : FileSys) (js tmp pdf : String)
    (h : run js = some pdf) :
    server_generate run fs (some js) tmp
      = (fs ++ [(tmp ++ ".json", js), (tmp ++ ".pdf", pdf)], 200)
    ∧ (tmp ++ ".json", js) ∈ (server_generate run fs (some js) tmp).1
    ∧ (tmp ++ ".pdf", pdf) ∈ (server_generate run fs (some js) tmp).1 := by
  have he : server_generate run fs (some js) tmp
      = (fs ++ [(tmp ++ ".json", js)] ++ [(tmp ++ ".pdf", pdf)], 200) := by
    unfold server_generate
    dsimp only
    rw [h]
  refine ⟨by rw [he]; simp, ?_, ?_⟩
  · rw [he]
    simp
  · rw [he]
    simp

/-- Witness for C8 at a concrete run. -/
theorem C8_files_persist_witness :
    server_generate (fun _ => some "PDFBYTES") [] (some "x") "tmpA"
      = ([("tmpA.json", "x"), ("tmpA.pdf", "PDFBYTES")], 200) := by
  have h := C8_files_persist (fun _ => some "PDFBYTES") [] "x" "tmpA" "PDFBYTES" rfl
  rw [h.1]
  rfl
